import Mathlib

/-!
Shallow embedding of the map lifecycle and overlay synchronization
controller of `src/src/components/Map/Map.tsx` (a React component using
Leaflet).  JavaScript numbers are modelled as rationals, JS field values
that undergo `typeof` checks as a small dynamic-value type, the Leaflet
layer collection of the live map as a list of layer descriptions, and
each React effect / event handler as a pure state transformer.  Network
calls are modelled by passing the response (or a transport error) as an
explicit argument and recording issued requests in the state.
-/

namespace AQIMap

/-- A JavaScript dynamic value, as far as the controller inspects one:
`typeof v === 'number'` holds exactly for the `num` constructor. -/
inductive JsVal where
  | num (q : ℚ)
  | str (s : String)
  | jsNull
  | undef
  | jsBool (b : Bool)
  deriving DecidableEq, Repr

/-- `typeof v === 'number'` as the controller writes it (line 173). -/
def JsVal.asNum : JsVal → Option ℚ
  | .num q => some q
  | _ => none

/-- One element of the fetched `aqiData` batch: either a falsy entry
(the `point &&` check at line 173) or an object whose `lat`, `lon` and
`aqi` fields are dynamic values; `stationName` models
`point.station?.name` (`none` when the station or its name is absent). -/
inductive JsPoint where
  | jsNull
  | obj (lat lon aqi : JsVal) (stationName : Option String)
  deriving DecidableEq, Repr

/-- A reading that passed the per-point validation of line 173:
all three fields were numbers. -/
structure ValidReading where
  lat : ℚ
  lon : ℚ
  aqi : ℚ
  stationName : Option String
  deriving DecidableEq, Repr

/-- The validation of line 173: `point && typeof point.lat === 'number'
&& typeof point.lon === 'number' && typeof point.aqi === 'number'`,
returning the extracted numeric fields on success. -/
def pointData : JsPoint → Option ValidReading
  | .jsNull => none
  | .obj la lo aq st =>
    match la.asNum, lo.asNum, aq.asNum with
    | some a, some b, some c => some ⟨a, b, c, st⟩
    | _, _, _ => none

def isValidPoint (p : JsPoint) : Bool := (pointData p).isSome

/-- A Leaflet layer attached to the map, as far as the controller
distinguishes them: the base tile layer, an `L.Marker` (used only for
the selected place, line 68), and an `L.CircleMarker` (used only for
reading markers, line 174).  In Leaflet `L.CircleMarker` is not a
subclass of `L.Marker`, so `instanceof` distinguishes the two. -/
inductive Layer where
  | tileLayer
  | marker (pos : ℚ × ℚ) (popup : String)
  | circleMarker (pos : ℚ × ℚ) (radius : ℚ) (fillColor : String) (popup : String)
  deriving DecidableEq, Repr

/-- `layer instanceof L.CircleMarker` (line 166). -/
def isCircleMarker : Layer → Bool
  | .circleMarker _ _ _ _ => true
  | _ => false

/-- `layer instanceof L.Marker` (line 62). -/
def isMarker : Layer → Bool
  | .marker _ _ => true
  | _ => false

/-- A user-facing notification from the `sonner` toast library. -/
inductive Toast where
  | error (msg : String)
  | warning (msg : String)
  deriving DecidableEq, Repr

/-- A geocoding candidate as returned by the search service: display
name plus string-encoded coordinates (lines 52-54, 69). -/
structure Candidate where
  display_name : String
  lat : String
  lon : String
  deriving DecidableEq, Repr

/-- Center and zoom of the live map (`setView`, line 58; construction
options, lines 105-106). -/
structure MapView where
  center : ℚ × ℚ
  zoom : ℚ
  deriving DecidableEq, Repr

/-- The live Leaflet map object held in `map.current`: an identity tag
(so distinct creations are distinct objects), its view and its layers. -/
structure MapObj where
  id : Nat
  view : MapView
  layers : List Layer
  deriving DecidableEq, Repr

/-- A bounding box `(south, west, north, east)` sent to the air-quality
service. -/
structure Bounds where
  south : ℚ
  west : ℚ
  north : ℚ
  east : ℚ
  deriving DecidableEq, Repr

/-- The controller's state across renders: the `map.current` ref, the
`mapInitialized` flag, the React state hooks (`aqiData`,
`searchResults`, `selectedLocation`), plus bookkeeping that lets us
state resource properties: `nextId` and `liveIds` track map instances
created and not yet destroyed, `fetchRequests` records every
air-quality request issued, `toasts` every notification fired. -/
structure CtrlState where
  mapCur : Option MapObj
  mapInitialized : Bool
  nextId : Nat
  liveIds : List Nat
  aqiData : List JsPoint
  searchResults : List Candidate
  selectedLocation : Option (ℚ × ℚ)
  fetchRequests : List Bounds
  toasts : List Toast
  deriving DecidableEq, Repr

/-- The state at mount: `map.current = null`, `mapInitialized = false`,
empty hooks, no instance ever created. -/
def initialState : CtrlState :=
  { mapCur := none, mapInitialized := false, nextId := 0, liveIds := []
    aqiData := [], searchResults := [], selectedLocation := none
    fetchRequests := [], toasts := [] }

/-! ## parseFloat

`parseFloat` on the candidate's string coordinates (lines 53-54),
modelled over ℚ: optional leading whitespace, optional sign, decimal
digits with an optional fractional part, ignoring any trailing
characters; `none` stands for `NaN` (no digits found).  Exponent forms
are not modelled (geocoding responses use plain decimals). -/

/-- Longest leading run of decimal digits, and the rest. -/
def takeDigits : List Char → List Char × List Char
  | [] => ([], [])
  | c :: cs =>
    if c.isDigit then
      let (d, r) := takeDigits cs
      (c :: d, r)
    else ([], c :: cs)

def digitsToNat (l : List Char) : Nat :=
  l.foldl (fun a c => 10 * a + (c.toNat - 48)) 0

def parseFloat (s : String) : Option ℚ :=
  let cs := s.toList.dropWhile (fun c => c.isWhitespace)
  let signAndRest : ℚ × List Char :=
    match cs with
    | '-' :: r => (-1, r)
    | '+' :: r => (1, r)
    | r => (1, r)
  let (ip, rest) := takeDigits signAndRest.2
  let fp : List Char :=
    match rest with
    | '.' :: r => (takeDigits r).1
    | _ => []
  if ip.isEmpty ∧ fp.isEmpty then none
  else
    some (signAndRest.1 *
      ((digitsToNat ip : ℚ) + (digitsToNat fp : ℚ) / (10 : ℚ) ^ fp.length))

/-! ## Search (lines 35-50) -/

/-- A transport error from a network call. -/
inductive NetError where
  | transport
  deriving DecidableEq, Repr

/-- `handleSearch` (lines 35-50).  The geocoding response (or transport
failure) is passed explicitly; the returned `Bool` records whether the
network call was issued.  The guard `if (!query)` is JS truthiness on a
string: it fires exactly for the empty string. -/
def handleSearch (query : String) (resp : Except NetError (List Candidate))
    (s : CtrlState) : CtrlState × Bool :=
  if query = "" then ({ s with searchResults := [] }, false)
  else
    match resp with
    | .ok data => ({ s with searchResults := data.take 5 }, true)
    | .error _ =>
      ({ s with toasts := s.toasts ++ [Toast.error "Error searching for locations"] }, true)

/-! ## Fetching air-quality data (lines 78-97 and 120-137) -/

/-- The resolved value of an air-quality request: `err` is a rejected
promise (transport/service error); `ok payload` is a resolved response,
where the outer `Option` is the truthiness of `response.data` and the
inner `Option` the truthiness of `response.data.data` (line 86/126).
A present-but-empty list is truthy in JS, hence `ok (some (some []))`
is distinct from the falsy cases. -/
inductive FetchResponse where
  | err
  | ok (payload : Option (Option (List JsPoint)))
  deriving DecidableEq, Repr

/-- `fetchAQIDataForLocation` (lines 78-97), reduced to its effect on
`aqiData` and the notifications it fires, as a function of the
response. -/
def fetchAQIDataForLocation (r : FetchResponse) : List JsPoint × List Toast :=
  match r with
  | .ok (some (some l)) => (l, [])
  | .ok _ => ([], [Toast.warning "No air quality data available for this location"])
  | .err => ([], [Toast.error "Failed to load air quality data"])

/-- `fetchAQIData` (lines 120-137), the initial default-region load,
reduced the same way. -/
def fetchAQIData (r : FetchResponse) : List JsPoint × List Toast :=
  match r with
  | .ok (some (some l)) => (l, [])
  | .ok _ => ([], [Toast.warning "No air quality data available. Please check your API key."])
  | .err => ([], [Toast.error "Failed to load air quality data. Please check your API key."])

/-- Completion of an in-flight `fetchAQIDataForLocation` applied to the
controller state: `setAqiData` plus the toast, nothing else. -/
def applyFetchForLocation (r : FetchResponse) (s : CtrlState) : CtrlState :=
  { s with aqiData := (fetchAQIDataForLocation r).1
           toasts := s.toasts ++ (fetchAQIDataForLocation r).2 }

/-- Completion of an in-flight initial `fetchAQIData` applied to the
controller state. -/
def applyFetchInitial (r : FetchResponse) (s : CtrlState) : CtrlState :=
  { s with aqiData := (fetchAQIData r).1
           toasts := s.toasts ++ (fetchAQIData r).2 }

/-! ## Selection (lines 52-76) -/

/-- The fixed margin of the post-search bounding box (line 81). -/
def offset : ℚ := 18 / 100

/-- The default overview zoom of the map construction (line 106). -/
def defaultZoom : ℚ := 4

/-- The zoom used on selecting a place (line 58). -/
def selectZoom : ℚ := 12

/-- The bounding box around a selected location (lines 81-83):
`lat-offset, lon-offset, lat+offset, lon+offset`. -/
def locationBounds (lat lon : ℚ) : Bounds :=
  ⟨lat - offset, lon - offset, lat + offset, lon + offset⟩

/-- The default continental-USA bounding box of the initial fetch
(line 123). -/
def usaBounds : Bounds :=
  ⟨24.396308, -125.000000, 49.384358, -66.934570⟩

/-- `handleSelectLocation` (lines 52-76) after the two `parseFloat`
calls succeeded with `lat`, `lon`: record the selection; if a live map
exists, re-center it at `selectZoom`, remove every `L.Marker`, add the
one selection marker with the display-name popup; clear the search
results; issue the area fetch (recorded in `fetchRequests`). -/
def handleSelectLocationCore (name : String) (lat lon : ℚ) (s : CtrlState) : CtrlState :=
  let s1 := { s with selectedLocation := some (lat, lon) }
  let s2 :=
    match s1.mapCur with
    | some m =>
      let cleared := m.layers.filter (fun l => !(isMarker l))
      let m' : MapObj :=
        { m with view := ⟨(lat, lon), selectZoom⟩
                 layers := cleared ++ [Layer.marker (lat, lon) ("<b>" ++ name ++ "</b>")] }
      { s1 with mapCur := some m' }
    | none => s1
  let s3 := { s2 with searchResults := [] }
  { s3 with fetchRequests := s3.fetchRequests ++ [locationBounds lat lon] }

/-- `handleSelectLocation` (lines 52-76).  `none` stands for the
NaN-coordinate path (a candidate whose strings do not parse), which the
rational model does not represent. -/
def handleSelectLocation (loc : Candidate) (s : CtrlState) : Option CtrlState :=
  match parseFloat loc.lat, parseFloat loc.lon with
  | some lat, some lon => some (handleSelectLocationCore loc.display_name lat lon s)
  | _, _ => none

/-! ## Map lifecycle (lines 99-159) -/

/-- The body of the initialization effect (lines 99-146): guarded by
`!mapContainer.current || !showMap || mapInitialized`; on passing the
guard it constructs a fresh map centered on the USA overview with the
base tile layer, sets `mapInitialized`, and issues the initial
default-region fetch. -/
def initEffectBody (containerPresent showMap : Bool) (s : CtrlState) : CtrlState :=
  if containerPresent = false ∨ showMap = false ∨ s.mapInitialized then s
  else
    { s with
      mapCur := some ⟨s.nextId, ⟨(39.8283, -98.5795), defaultZoom⟩, [Layer.tileLayer]⟩
      mapInitialized := true
      nextId := s.nextId + 1
      liveIds := s.nextId :: s.liveIds
      fetchRequests := s.fetchRequests ++ [usaBounds] }

/-- The cleanup of the initialization effect (lines 152-158): if a map
exists, `map.current.remove()` (the instance stops being live),
`map.current = null`, `setMapInitialized(false)`. -/
def cleanupEffect (s : CtrlState) : CtrlState :=
  match s.mapCur with
  | some m =>
    { s with mapCur := none, mapInitialized := false, liveIds := s.liveIds.erase m.id }
  | none => s

/-! ## Overlay reconciliation (lines 161-186) -/

/-- The reading marker built for one valid reading (lines 174-183):
an `L.CircleMarker` at its coordinates, radius 8, filled with the color
of its index, popup built from the index and the station name with the
`'Unknown Station'` fallback.  The constant style options
`color '#fff', weight 1, opacity 1, fillOpacity 0.8` are not tracked.
The color-mapping function `getAQIColor` lives outside the controller
(an external collaborator) and is passed as a parameter. -/
def mkAQIMarker (color : ℚ → String) (v : ValidReading) : Layer :=
  .circleMarker (v.lat, v.lon) 8 (color v.aqi)
    ("<b>AQI: " ++ toString v.aqi ++ "</b><br>" ++ v.stationName.getD "Unknown Station")

/-- The markers created by the `forEach` of lines 172-185: one per
point passing validation, in batch order. -/
def mkMarkers (color : ℚ → String) (d : List JsPoint) : List Layer :=
  d.filterMap (fun p => (pointData p).map (mkAQIMarker color))

/-- The layer collection after the reconciliation body ran (lines
164-185): every `L.CircleMarker` removed, then the current batch's
markers added. -/
def reconcileLayers (color : ℚ → String) (layers : List Layer) (d : List JsPoint) : List Layer :=
  layers.filter (fun l => !(isCircleMarker l)) ++ mkMarkers color d

/-- The reconciliation effect (lines 161-186) on the controller state:
the guard of line 162 (`!map.current || !Array.isArray(aqiData) ||
aqiData.length === 0`; `aqiData` is always an array here) returns
early, otherwise the live map's layers are reconciled against
`aqiData`. -/
def runReconcile (color : ℚ → String) (s : CtrlState) : CtrlState :=
  match s.mapCur with
  | none => s
  | some m =>
    if s.aqiData.isEmpty then s
    else { s with mapCur := some { m with layers := reconcileLayers color m.layers s.aqiData } }

/-! ## Event system

Every state change of the controller is one of these events; traces
from `initialState` are the controller's reachable states. -/

inductive Step : CtrlState → CtrlState → Prop where
  | init (c g : Bool) (s : CtrlState) : Step s (initEffectBody c g s)
  | cleanup (s : CtrlState) : Step s (cleanupEffect s)
  | search (q : String) (r : Except NetError (List Candidate)) (s : CtrlState) :
      Step s (handleSearch q r s).1
  | select (name : String) (lat lon : ℚ) (s : CtrlState) :
      Step s (handleSelectLocationCore name lat lon s)
  | fetchLoc (r : FetchResponse) (s : CtrlState) : Step s (applyFetchForLocation r s)
  | fetchInit (r : FetchResponse) (s : CtrlState) : Step s (applyFetchInitial r s)
  | reconcile (color : ℚ → String) (s : CtrlState) : Step s (runReconcile color s)

/-- States the controller can reach from mount. -/
def Reachable (s : CtrlState) : Prop :=
  Relation.ReflTransGen Step initialState s

end AQIMap

namespace AQIMap

/-! ## Demo constants used by concrete witnesses and counterexamples -/

/-- A concrete stand-in for the external `getAQIColor` collaborator. -/
def demoColor : ℚ → String := fun _ => "green"

/-- A reading that passes the line-173 validation. -/
def demoPoint : JsPoint := .obj (.num 10) (.num 20) (.num 42) (some "Station A")

/-- A second valid reading. -/
def demoPoint2 : JsPoint := .obj (.num 11) (.num 21) (.num 7) none

/-- A malformed reading: its `lat` field is a string, so the line-173
`typeof` check rejects it. -/
def badPoint : JsPoint := .obj (.str "10") (.num 20) (.num 42) none

/-! ## Reconciliation lemmas -/

lemma mkMarkers_mem_isCircle (color : ℚ → String) (d : List JsPoint) :
    ∀ l ∈ mkMarkers color d, isCircleMarker l = true := by
  intro l hl
  simp only [mkMarkers, List.mem_filterMap] at hl
  obtain ⟨p, -, hp⟩ := hl
  obtain ⟨v, -, rfl⟩ := Option.map_eq_some'.mp hp
  rfl

lemma filter_circle_mkMarkers (color : ℚ → String) (d : List JsPoint) :
    (mkMarkers color d).filter isCircleMarker = mkMarkers color d :=
  List.filter_eq_self.mpr (mkMarkers_mem_isCircle color d)

lemma filter_not_circle_mkMarkers (color : ℚ → String) (d : List JsPoint) :
    (mkMarkers color d).filter (fun l => !(isCircleMarker l)) = [] := by
  rw [List.filter_eq_nil_iff]
  intro a ha
  simp [mkMarkers_mem_isCircle color d a ha]

lemma reconcileLayers_filter_circle (color : ℚ → String) (L : List Layer) (d : List JsPoint) :
    (reconcileLayers color L d).filter isCircleMarker = mkMarkers color d := by
  simp [reconcileLayers, List.filter_append, List.filter_filter, filter_circle_mkMarkers]

lemma reconcileLayers_filter_not_circle (color : ℚ → String) (L : List Layer) (d : List JsPoint) :
    (reconcileLayers color L d).filter (fun l => !(isCircleMarker l)) =
      L.filter (fun l => !(isCircleMarker l)) := by
  simp [reconcileLayers, List.filter_append, List.filter_filter, filter_not_circle_mkMarkers]

lemma reconcileLayers_idem (color : ℚ → String) (L : List Layer) (d : List JsPoint) :
    reconcileLayers color (reconcileLayers color L d) d = reconcileLayers color L d := by
  unfold reconcileLayers
  rw [List.filter_append, filter_not_circle_mkMarkers, List.filter_filter]
  simp

lemma mkMarkers_length (color : ℚ → String) (d : List JsPoint) :
    (mkMarkers color d).length = (d.filter isValidPoint).length := by
  induction d with
  | nil => rfl
  | cons p d ih =>
    simp only [mkMarkers, List.filterMap_cons, List.filter_cons] at *
    cases h : pointData p with
    | none => simpa [isValidPoint, h] using ih
    | some v => simpa [isValidPoint, h] using ih

lemma runReconcile_none (color : ℚ → String) (s : CtrlState) (h : s.mapCur = none) :
    runReconcile color s = s := by
  unfold runReconcile
  rw [h]

/-- C6: reconciliation is idempotent — for every Dataset (held in
`aqiData`), running the reconciliation effect twice with no intervening
change yields the same overlay set (and state) as running it once,
because it removes every reading-marker and recreates them from the
Dataset. -/
theorem reconcile_idempotent (color : ℚ → String) (s : CtrlState) :
    runReconcile color (runReconcile color s) = runReconcile color s := by
  cases hm : s.mapCur with
  | none => simp [runReconcile_none color _ hm, runReconcile_none, hm]
  | some m =>
    by_cases hd : s.aqiData.isEmpty
    · simp [runReconcile, hm, hd]
    · simp [runReconcile, hm, hd, reconcileLayers_idem]

/-- C4: teardown during an in-flight fetch — after the cleanup of the
initialization effect, the map handle is `null`; the fetch's later
completion leaves it `null`, and the reconciliation effect it triggers
is a no-op (its line-162 guard), so no overlay is added to or removed
from the destroyed map instance. -/
theorem no_late_mutation_after_teardown (s : CtrlState) (r : FetchResponse)
    (color : ℚ → String) :
    (cleanupEffect s).mapCur = none ∧
    (applyFetchForLocation r (cleanupEffect s)).mapCur = none ∧
    runReconcile color (applyFetchForLocation r (cleanupEffect s)) =
      applyFetchForLocation r (cleanupEffect s) := by
  have h1 : (cleanupEffect s).mapCur = none := by
    cases hm : s.mapCur <;> simp [cleanupEffect, hm]
  have h2 : (applyFetchForLocation r (cleanupEffect s)).mapCur = none := by
    simp [applyFetchForLocation, h1]
  exact ⟨h1, h2, runReconcile_none color _ h2⟩

/-- C7: a reading whose coordinate or index field is not numeric is
silently excluded — it produces no marker, the markers produced for the
rest of the batch are exactly those of the batch without it, and after
reconciliation the overlay set's reading markers are those of the other
readings. -/
theorem invalid_reading_excluded (color : ℚ → String) (l₁ l₂ : List JsPoint)
    (p : JsPoint) (s : CtrlState) (m : MapObj) (h : isValidPoint p = false)
    (hm : s.mapCur = some m) (hd : s.aqiData = l₁ ++ p :: l₂) :
    mkMarkers color [p] = [] ∧
    mkMarkers color (l₁ ++ p :: l₂) = mkMarkers color (l₁ ++ l₂) ∧
    ∃ m', (runReconcile color s).mapCur = some m' ∧
      m'.layers.filter isCircleMarker = mkMarkers color (l₁ ++ l₂) := by
  have hp : pointData p = none := by
    cases hpd : pointData p with
    | none => rfl
    | some v => simp [isValidPoint, hpd] at h
  have h1 : mkMarkers color [p] = [] := by
    simp [mkMarkers, List.filterMap_cons, hp]
  have h2 : mkMarkers color (l₁ ++ p :: l₂) = mkMarkers color (l₁ ++ l₂) := by
    simp [mkMarkers, List.filterMap_append, List.filterMap_cons, hp]
  refine ⟨h1, h2, ?_⟩
  have hne : s.aqiData.isEmpty = false := by
    rw [hd]; simp
  refine ⟨{ m with layers := reconcileLayers color m.layers s.aqiData }, ?_, ?_⟩
  · unfold runReconcile
    rw [hm]
    simp [hne]
  · simpa [reconcileLayers_filter_circle, hd] using h2

/-- Witness for C7 at a concrete batch: `badPoint` (string latitude)
between two valid readings. -/
theorem invalid_reading_excluded_witness :
    mkMarkers demoColor [badPoint] = [] ∧
    mkMarkers demoColor ([demoPoint] ++ badPoint :: [demoPoint2]) =
      mkMarkers demoColor ([demoPoint] ++ [demoPoint2]) ∧
    ∃ m', (runReconcile demoColor
            { initialState with
                mapCur := some ⟨0, ⟨(0, 0), 4⟩, [Layer.tileLayer]⟩
                aqiData := [demoPoint] ++ badPoint :: [demoPoint2] }).mapCur = some m' ∧
      m'.layers.filter isCircleMarker = mkMarkers demoColor ([demoPoint] ++ [demoPoint2]) :=
  invalid_reading_excluded demoColor [demoPoint] [demoPoint2] badPoint
    { initialState with
        mapCur := some ⟨0, ⟨(0, 0), 4⟩, [Layer.tileLayer]⟩
        aqiData := [demoPoint] ++ badPoint :: [demoPoint2] }
    ⟨0, ⟨(0, 0), 4⟩, [Layer.tileLayer]⟩ (by decide) rfl rfl

end AQIMap

namespace AQIMap

/-! ## More reconciliation lemmas (selection marker preservation) -/

lemma isMarker_and_not_circle (l : Layer) :
    (isMarker l && !(isCircleMarker l)) = isMarker l := by
  cases l <;> rfl

lemma not_isMarker_of_isCircle (l : Layer) (h : isCircleMarker l = true) :
    isMarker l = false := by
  cases l <;> simp_all [isCircleMarker, isMarker]

lemma filter_marker_mkMarkers (color : ℚ → String) (d : List JsPoint) :
    (mkMarkers color d).filter isMarker = [] := by
  rw [List.filter_eq_nil_iff]
  intro a ha
  simp [not_isMarker_of_isCircle a (mkMarkers_mem_isCircle color d a ha)]

lemma reconcileLayers_filter_marker (color : ℚ → String) (L : List Layer) (d : List JsPoint) :
    (reconcileLayers color L d).filter isMarker = L.filter isMarker := by
  rw [reconcileLayers, List.filter_append, List.filter_filter, filter_marker_mkMarkers,
    List.append_nil]
  exact List.filter_congr (fun x _ => isMarker_and_not_circle x)

/-- C1 (amended): for a replacement by a **non-empty** Dataset, after
the reconciliation effect runs on a live map, the overlay set's
reading-markers are exactly one per valid Reading of the current
Dataset (none from any prior Dataset), and every non-reading layer —
in particular the selected-place `L.Marker`, if any — is untouched.
(The original claim also covered replacement by an empty Dataset; the
line-162 guard skips reconciliation in that case, see the
counterexample.) -/
theorem reconcile_exact_markers (color : ℚ → String) (s : CtrlState) (m : MapObj)
    (hm : s.mapCur = some m) (hd : s.aqiData ≠ []) :
    ∃ m', (runReconcile color s).mapCur = some m' ∧
      m'.layers.filter isCircleMarker = mkMarkers color s.aqiData ∧
      (mkMarkers color s.aqiData).length = (s.aqiData.filter isValidPoint).length ∧
      m'.layers.filter (fun l => !(isCircleMarker l)) =
        m.layers.filter (fun l => !(isCircleMarker l)) ∧
      m'.layers.filter isMarker = m.layers.filter isMarker := by
  have hne : s.aqiData.isEmpty = false := by
    cases hq : s.aqiData with
    | nil => exact absurd hq hd
    | cons a l => rfl
  refine ⟨{ m with layers := reconcileLayers color m.layers s.aqiData }, ?_, ?_, ?_, ?_, ?_⟩
  · unfold runReconcile
    rw [hm]
    simp [hne]
  · exact reconcileLayers_filter_circle color m.layers s.aqiData
  · exact mkMarkers_length color s.aqiData
  · exact reconcileLayers_filter_not_circle color m.layers s.aqiData
  · exact reconcileLayers_filter_marker color m.layers s.aqiData

/-- Witness for C1 (amended): a live map carrying a stale reading
marker and a selection marker, reconciled against the one-valid-reading
Dataset `[demoPoint]`. -/
theorem reconcile_exact_markers_witness :
    ∃ m', (runReconcile demoColor
        { initialState with
            mapCur := some ⟨0, ⟨(0, 0), 4⟩,
              [Layer.tileLayer, Layer.circleMarker (1, 1) 8 "red" "stale",
               Layer.marker (5, 6) "sel"]⟩
            aqiData := [demoPoint] }).mapCur = some m' ∧
      m'.layers.filter isCircleMarker = mkMarkers demoColor [demoPoint] ∧
      (mkMarkers demoColor [demoPoint]).length = ([demoPoint].filter isValidPoint).length ∧
      m'.layers.filter (fun l => !(isCircleMarker l)) =
        [Layer.tileLayer, Layer.circleMarker (1, 1) 8 "red" "stale",
         Layer.marker (5, 6) "sel"].filter (fun l => !(isCircleMarker l)) ∧
      m'.layers.filter isMarker =
        [Layer.tileLayer, Layer.circleMarker (1, 1) 8 "red" "stale",
         Layer.marker (5, 6) "sel"].filter isMarker :=
  reconcile_exact_markers demoColor
    { initialState with
        mapCur := some ⟨0, ⟨(0, 0), 4⟩,
          [Layer.tileLayer, Layer.circleMarker (1, 1) 8 "red" "stale",
           Layer.marker (5, 6) "sel"]⟩
        aqiData := [demoPoint] }
    ⟨0, ⟨(0, 0), 4⟩,
      [Layer.tileLayer, Layer.circleMarker (1, 1) 8 "red" "stale",
       Layer.marker (5, 6) "sel"]⟩ rfl (by decide)

/-- C1 counterexample: replacement by an **empty** Dataset.  A live map
holds one reading-marker created for a prior Dataset; the Dataset is
replaced by `[]` (as a no-data fetch does); the reconciliation effect's
line-162 guard returns early, and the prior Dataset's reading-marker is
still in the overlay set, although the current Dataset has no valid
Reading — contradicting the claim. -/
theorem stale_marker_on_empty_dataset_cex :
    (runReconcile demoColor
        { initialState with
            mapCur := some ⟨0, ⟨(0, 0), 4⟩,
              [Layer.tileLayer, Layer.circleMarker (1, 1) 8 "red" "stale"]⟩
            aqiData := [] }).mapCur =
      some ⟨0, ⟨(0, 0), 4⟩,
        [Layer.tileLayer, Layer.circleMarker (1, 1) 8 "red" "stale"]⟩ ∧
    ([Layer.tileLayer, Layer.circleMarker (1, 1) 8 "red" "stale"].filter
        isCircleMarker).length = 1 ∧
    (([] : List JsPoint).filter isValidPoint).length = 0 := by
  refine ⟨?_, by decide, rfl⟩
  rfl

/-! ## C3: fetch failure / no-data handling -/

/-- Whether a resolved air-quality response carries a data list
(the truthiness test of lines 86 and 126). -/
def hasData : FetchResponse → Bool
  | .ok (some (some _)) => true
  | _ => false

/-- C3: for every air-quality fetch (initial load or post-search load)
whose response has no data or that fails in transport, the resulting
Dataset is empty and exactly one notification fires — a warning with a
no-data message on the empty response, an error with a distinct
request-failed message on the transport error — and the map handle and
the rest of the state are untouched (the Controller does not fail). -/
theorem fetch_failure_empty_dataset (r : FetchResponse) (s : CtrlState)
    (h : hasData r = false) :
    (fetchAQIDataForLocation r).1 = [] ∧ (fetchAQIDataForLocation r).2.length = 1 ∧
    (fetchAQIData r).1 = [] ∧ (fetchAQIData r).2.length = 1 ∧
    (r = .err →
      (fetchAQIDataForLocation r).2 = [Toast.error "Failed to load air quality data"] ∧
      (fetchAQIData r).2 =
        [Toast.error "Failed to load air quality data. Please check your API key."]) ∧
    (r ≠ .err →
      (fetchAQIDataForLocation r).2 =
        [Toast.warning "No air quality data available for this location"] ∧
      (fetchAQIData r).2 =
        [Toast.warning "No air quality data available. Please check your API key."]) ∧
    Toast.warning "No air quality data available for this location" ≠
      Toast.error "Failed to load air quality data" ∧
    Toast.warning "No air quality data available. Please check your API key." ≠
      Toast.error "Failed to load air quality data. Please check your API key." ∧
    (applyFetchForLocation r s).mapCur = s.mapCur ∧
    (applyFetchInitial r s).mapCur = s.mapCur ∧
    (applyFetchForLocation r s).searchResults = s.searchResults ∧
    (applyFetchForLocation r s).aqiData = [] := by
  match r with
  | .err =>
    simp [fetchAQIDataForLocation, fetchAQIData, applyFetchForLocation, applyFetchInitial]
  | .ok none =>
    simp [fetchAQIDataForLocation, fetchAQIData, applyFetchForLocation, applyFetchInitial]
  | .ok (some none) =>
    simp [fetchAQIDataForLocation, fetchAQIData, applyFetchForLocation, applyFetchInitial]
  | .ok (some (some l)) => simp [hasData] at h

/-- Witness for C3 at the transport-error response and the mount
state. -/
theorem fetch_failure_empty_dataset_witness :
    (fetchAQIDataForLocation .err).1 = [] ∧ (fetchAQIDataForLocation .err).2.length = 1 ∧
    (fetchAQIData .err).1 = [] ∧ (fetchAQIData .err).2.length = 1 ∧
    (FetchResponse.err = .err →
      (fetchAQIDataForLocation .err).2 = [Toast.error "Failed to load air quality data"] ∧
      (fetchAQIData .err).2 =
        [Toast.error "Failed to load air quality data. Please check your API key."]) ∧
    (FetchResponse.err ≠ .err →
      (fetchAQIDataForLocation .err).2 =
        [Toast.warning "No air quality data available for this location"] ∧
      (fetchAQIData .err).2 =
        [Toast.warning "No air quality data available. Please check your API key."]) ∧
    Toast.warning "No air quality data available for this location" ≠
      Toast.error "Failed to load air quality data" ∧
    Toast.warning "No air quality data available. Please check your API key." ≠
      Toast.error "Failed to load air quality data. Please check your API key." ∧
    (applyFetchForLocation .err initialState).mapCur = initialState.mapCur ∧
    (applyFetchInitial .err initialState).mapCur = initialState.mapCur ∧
    (applyFetchForLocation .err initialState).searchResults = initialState.searchResults ∧
    (applyFetchForLocation .err initialState).aqiData = [] :=
  fetch_failure_empty_dataset .err initialState rfl

/-! ## C8, C9: search -/

/-- C8 (amended): on a geocoding transport failure, exactly one
user-facing error notification fires and the Dataset and map state are
unchanged, but the candidate list is **left as it was** rather than
emptied (the catch branch of lines 46-49 never touches
`searchResults`). -/
theorem search_transport_failure (q : String) (s : CtrlState) (hq : q ≠ "") :
    (handleSearch q (.error .transport) s).1.searchResults = s.searchResults ∧
    (handleSearch q (.error .transport) s).1.toasts =
      s.toasts ++ [Toast.error "Error searching for locations"] ∧
    (handleSearch q (.error .transport) s).1.aqiData = s.aqiData ∧
    (handleSearch q (.error .transport) s).1.mapCur = s.mapCur ∧
    (handleSearch q (.error .transport) s).1.selectedLocation = s.selectedLocation ∧
    (handleSearch q (.error .transport) s).1.fetchRequests = s.fetchRequests ∧
    (handleSearch q (.error .transport) s).2 = true := by
  simp [handleSearch, hq]

/-- Witness for C8 (amended) at a concrete query and a state holding a
prior candidate list. -/
theorem search_transport_failure_witness :
    (handleSearch "Lyon" (.error .transport)
        { initialState with searchResults := [⟨"Paris", "48.8566", "2.3522"⟩] }).1.searchResults =
      ({ initialState with
          searchResults := [⟨"Paris", "48.8566", "2.3522"⟩] } : CtrlState).searchResults ∧
    (handleSearch "Lyon" (.error .transport)
        { initialState with searchResults := [⟨"Paris", "48.8566", "2.3522"⟩] }).1.toasts =
      ({ initialState with
          searchResults := [⟨"Paris", "48.8566", "2.3522"⟩] } : CtrlState).toasts ++
        [Toast.error "Error searching for locations"] ∧
    (handleSearch "Lyon" (.error .transport)
        { initialState with searchResults := [⟨"Paris", "48.8566", "2.3522"⟩] }).1.aqiData =
      ({ initialState with
          searchResults := [⟨"Paris", "48.8566", "2.3522"⟩] } : CtrlState).aqiData ∧
    (handleSearch "Lyon" (.error .transport)
        { initialState with searchResults := [⟨"Paris", "48.8566", "2.3522"⟩] }).1.mapCur =
      ({ initialState with
          searchResults := [⟨"Paris", "48.8566", "2.3522"⟩] } : CtrlState).mapCur ∧
    (handleSearch "Lyon" (.error .transport)
        { initialState with
            searchResults := [⟨"Paris", "48.8566", "2.3522"⟩] }).1.selectedLocation =
      ({ initialState with
          searchResults := [⟨"Paris", "48.8566", "2.3522"⟩] } : CtrlState).selectedLocation ∧
    (handleSearch "Lyon" (.error .transport)
        { initialState with searchResults := [⟨"Paris", "48.8566", "2.3522"⟩] }).1.fetchRequests =
      ({ initialState with
          searchResults := [⟨"Paris", "48.8566", "2.3522"⟩] } : CtrlState).fetchRequests ∧
    (handleSearch "Lyon" (.error .transport)
        { initialState with searchResults := [⟨"Paris", "48.8566", "2.3522"⟩] }).2 = true :=
  search_transport_failure "Lyon"
    { initialState with searchResults := [⟨"Paris", "48.8566", "2.3522"⟩] } (by decide)

/-- C8 counterexample: the claim's "resulting candidate list is empty"
is false — a failing search after a successful one leaves the prior
(non-empty) candidate list in place. -/
theorem search_failure_list_not_emptied_cex :
    (handleSearch "Lyon" (.error .transport)
        { initialState with searchResults := [⟨"Paris", "48.8566", "2.3522"⟩] }).1.searchResults =
      [⟨"Paris", "48.8566", "2.3522"⟩] ∧
    ([(⟨"Paris", "48.8566", "2.3522"⟩ : Candidate)] : List Candidate) ≠ [] := by
  exact ⟨by simp [handleSearch, initialState], by simp⟩

/-- C9 (amended): the **empty** query yields an immediately empty
candidate list with no network call; every other query — including a
whitespace-only one, which the `if (!query)` guard of line 36 does not
catch — issues the geocoding call, and on success the candidate list is
the first at-most-five candidates of the response in the order
received. -/
theorem search_query_behavior (r : Except NetError (List Candidate)) (s : CtrlState)
    (q : String) (data : List Candidate) (hq : q ≠ "") :
    (handleSearch "" r s).1.searchResults = [] ∧
    (handleSearch "" r s).2 = false ∧
    (handleSearch q (.ok data) s).1.searchResults = data.take 5 ∧
    (handleSearch q (.ok data) s).2 = true ∧
    (handleSearch q (.ok data) s).1.searchResults.length ≤ 5 ∧
    (handleSearch q (.ok data) s).1.searchResults ++ data.drop 5 = data := by
  refine ⟨by simp [handleSearch], by simp [handleSearch], by simp [handleSearch, hq],
    by simp [handleSearch, hq], ?_, ?_⟩
  · simp [handleSearch, hq, List.length_take]
  · simp [handleSearch, hq, List.take_append_drop]

/-- Witness for C9 (amended): a whitespace-only query against a
seven-candidate response — the call is issued and the first five
candidates are kept. -/
theorem search_query_behavior_witness :
    (handleSearch "" (.ok [⟨"A", "1", "2"⟩]) initialState).1.searchResults = [] ∧
    (handleSearch "" (.ok [⟨"A", "1", "2"⟩]) initialState).2 = false ∧
    (handleSearch " " (.ok [⟨"A", "1", "2"⟩, ⟨"B", "1", "2"⟩, ⟨"C", "1", "2"⟩, ⟨"D", "1", "2"⟩,
        ⟨"E", "1", "2"⟩, ⟨"F", "1", "2"⟩, ⟨"G", "1", "2"⟩]) initialState).1.searchResults =
      ([⟨"A", "1", "2"⟩, ⟨"B", "1", "2"⟩, ⟨"C", "1", "2"⟩, ⟨"D", "1", "2"⟩, ⟨"E", "1", "2"⟩,
        ⟨"F", "1", "2"⟩, ⟨"G", "1", "2"⟩] : List Candidate).take 5 ∧
    (handleSearch " " (.ok [⟨"A", "1", "2"⟩, ⟨"B", "1", "2"⟩, ⟨"C", "1", "2"⟩, ⟨"D", "1", "2"⟩,
        ⟨"E", "1", "2"⟩, ⟨"F", "1", "2"⟩, ⟨"G", "1", "2"⟩]) initialState).2 = true ∧
    (handleSearch " " (.ok [⟨"A", "1", "2"⟩, ⟨"B", "1", "2"⟩, ⟨"C", "1", "2"⟩, ⟨"D", "1", "2"⟩,
        ⟨"E", "1", "2"⟩, ⟨"F", "1", "2"⟩, ⟨"G", "1", "2"⟩])
          initialState).1.searchResults.length ≤ 5 ∧
    (handleSearch " " (.ok [⟨"A", "1", "2"⟩, ⟨"B", "1", "2"⟩, ⟨"C", "1", "2"⟩, ⟨"D", "1", "2"⟩,
        ⟨"E", "1", "2"⟩, ⟨"F", "1", "2"⟩, ⟨"G", "1", "2"⟩]) initialState).1.searchResults ++
      ([⟨"A", "1", "2"⟩, ⟨"B", "1", "2"⟩, ⟨"C", "1", "2"⟩, ⟨"D", "1", "2"⟩, ⟨"E", "1", "2"⟩,
        ⟨"F", "1", "2"⟩, ⟨"G", "1", "2"⟩] : List Candidate).drop 5 =
      [⟨"A", "1", "2"⟩, ⟨"B", "1", "2"⟩, ⟨"C", "1", "2"⟩, ⟨"D", "1", "2"⟩, ⟨"E", "1", "2"⟩,
        ⟨"F", "1", "2"⟩, ⟨"G", "1", "2"⟩] :=
  search_query_behavior (.ok [⟨"A", "1", "2"⟩]) initialState " "
    [⟨"A", "1", "2"⟩, ⟨"B", "1", "2"⟩, ⟨"C", "1", "2"⟩, ⟨"D", "1", "2"⟩, ⟨"E", "1", "2"⟩,
      ⟨"F", "1", "2"⟩, ⟨"G", "1", "2"⟩] (by decide)

/-- C9 counterexample: the whitespace-only query `" "` is not caught by
the `if (!query)` guard — the geocoding network call **is** issued, and
the response populates the candidate list. -/
theorem blank_query_issues_network_cex :
    (handleSearch " " (.ok [⟨"P", "1", "2"⟩]) initialState).2 = true ∧
    (handleSearch " " (.ok [⟨"P", "1", "2"⟩]) initialState).1.searchResults ≠ [] := by
  exact ⟨by simp [handleSearch], by simp [handleSearch]⟩

end AQIMap

namespace AQIMap

/-! ## C5, C10: selection -/

lemma filter_marker_cleared (L : List Layer) :
    (L.filter (fun l => !(isMarker l))).filter isMarker = [] := by
  rw [List.filter_filter]
  simp

lemma isCircle_and_not_marker (l : Layer) :
    (isCircleMarker l && !(isMarker l)) = isCircleMarker l := by
  cases l <;> rfl

lemma filter_circle_cleared (L : List Layer) :
    (L.filter (fun l => !(isMarker l))).filter isCircleMarker = L.filter isCircleMarker := by
  rw [List.filter_filter]
  exact List.filter_congr (fun x _ => isCircle_and_not_marker x)

/-- C5: selecting a candidate whose string coordinates parse re-centers
the live map on the parsed coordinate at the fixed zoom 12, strictly
closer than the default overview zoom 4; leaves exactly one
selected-place `L.Marker`, labeled with the candidate's display name,
at that coordinate (reading markers untouched); clears the candidate
list; and issues a fetch for the bounding box extending 0.18 decimal
degrees from the coordinate in each direction. -/
theorem select_location_recenters (s : CtrlState) (loc : Candidate) (lat lon : ℚ)
    (m : MapObj) (h1 : parseFloat loc.lat = some lat)
    (h2 : parseFloat loc.lon = some lon) (h3 : s.mapCur = some m) :
    ∃ s', handleSelectLocation loc s = some s' ∧
      ∃ m', s'.mapCur = some m' ∧
        m'.view.center = (lat, lon) ∧
        m'.view.zoom = selectZoom ∧
        defaultZoom < selectZoom ∧
        m'.layers.filter isMarker =
          [Layer.marker (lat, lon) ("<b>" ++ loc.display_name ++ "</b>")] ∧
        m'.layers.filter isCircleMarker = m.layers.filter isCircleMarker ∧
        s'.searchResults = [] ∧
        s'.selectedLocation = some (lat, lon) ∧
        s'.fetchRequests = s.fetchRequests ++ [locationBounds lat lon] ∧
        locationBounds lat lon =
          ⟨lat - 18 / 100, lon - 18 / 100, lat + 18 / 100, lon + 18 / 100⟩ := by
  refine ⟨handleSelectLocationCore loc.display_name lat lon s, ?_, ?_⟩
  · simp [handleSelectLocation, h1, h2]
  · refine ⟨⟨m.id, ⟨(lat, lon), selectZoom⟩,
        m.layers.filter (fun l => !(isMarker l)) ++
          [Layer.marker (lat, lon) ("<b>" ++ loc.display_name ++ "</b>")]⟩, ?_,
      rfl, rfl, by norm_num [defaultZoom, selectZoom], ?_, ?_, ?_, ?_, ?_, rfl⟩
    · simp [handleSelectLocationCore, h3]
    · simp [List.filter_append, filter_marker_cleared, isMarker]
    · rw [List.filter_append, filter_circle_cleared]
      simp [isCircleMarker]
    · simp [handleSelectLocationCore, h3]
    · simp [handleSelectLocationCore, h3]
    · simp [handleSelectLocationCore, h3]

/-- Witness for C5: the Paris candidate of the spec, against a live map
holding one reading marker; the issued bounds land within 0.01 of the
spec's approximate (48.68, 2.17)-(49.04, 2.53). -/
theorem select_location_recenters_witness :
    (|(48.8566 : ℚ) - 18 / 100 - 48.68| ≤ 1 / 100 ∧
     |(2.3522 : ℚ) - 18 / 100 - 2.17| ≤ 1 / 100 ∧
     |(48.8566 : ℚ) + 18 / 100 - 49.04| ≤ 1 / 100 ∧
     |(2.3522 : ℚ) + 18 / 100 - 2.53| ≤ 1 / 100) ∧
    (∃ s', handleSelectLocation ⟨"Paris", "48.8566", "2.3522"⟩
        { initialState with
            mapCur := some ⟨0, ⟨(39.8283, -98.5795), 4⟩,
              [Layer.tileLayer, Layer.circleMarker (1, 1) 8 "red" "r"]⟩ } = some s' ∧
      ∃ m', s'.mapCur = some m' ∧
        m'.view.center = ((48.8566 : ℚ), (2.3522 : ℚ)) ∧
        m'.view.zoom = selectZoom ∧
        defaultZoom < selectZoom ∧
        m'.layers.filter isMarker =
          [Layer.marker ((48.8566 : ℚ), (2.3522 : ℚ)) "<b>Paris</b>"] ∧
        m'.layers.filter isCircleMarker =
          [Layer.tileLayer, Layer.circleMarker (1, 1) 8 "red" "r"].filter isCircleMarker ∧
        s'.searchResults = [] ∧
        s'.selectedLocation = some ((48.8566 : ℚ), (2.3522 : ℚ)) ∧
        s'.fetchRequests =
          ({ initialState with
              mapCur := some ⟨0, ⟨(39.8283, -98.5795), 4⟩,
                [Layer.tileLayer, Layer.circleMarker (1, 1) 8 "red" "r"]⟩ } :
            CtrlState).fetchRequests ++ [locationBounds 48.8566 2.3522] ∧
        locationBounds 48.8566 2.3522 =
          ⟨(48.8566 : ℚ) - 18 / 100, (2.3522 : ℚ) - 18 / 100,
           (48.8566 : ℚ) + 18 / 100, (2.3522 : ℚ) + 18 / 100⟩) := by
  constructor
  · refine ⟨?_, ?_, ?_, ?_⟩ <;> (rw [abs_le]; constructor <;> norm_num)
  · have hm : Layer.marker ((48.8566 : ℚ), (2.3522 : ℚ)) ("<b>" ++ "Paris" ++ "</b>") =
        Layer.marker ((48.8566 : ℚ), (2.3522 : ℚ)) "<b>Paris</b>" := rfl
    simpa [hm] using select_location_recenters
      { initialState with
          mapCur := some ⟨0, ⟨(39.8283, -98.5795), 4⟩,
            [Layer.tileLayer, Layer.circleMarker (1, 1) 8 "red" "r"]⟩ }
      ⟨"Paris", "48.8566", "2.3522"⟩ 48.8566 2.3522
      ⟨0, ⟨(39.8283, -98.5795), 4⟩, [Layer.tileLayer, Layer.circleMarker (1, 1) 8 "red" "r"]⟩
      (by simp [parseFloat, takeDigits, digitsToNat]; norm_num)
      (by simp [parseFloat, takeDigits, digitsToNat]; norm_num) rfl

/-- C10 (implicit frame effect): selecting a candidate while no live
map exists skips every map mutation (the handle stays `null`, so no
re-center and no marker change), but still records the selected
coordinate, clears the candidate list, and issues the region fetch —
the Dataset pipeline runs without a map. -/
theorem select_location_no_map (s : CtrlState) (loc : Candidate) (lat lon : ℚ)
    (h1 : parseFloat loc.lat = some lat) (h2 : parseFloat loc.lon = some lon)
    (h3 : s.mapCur = none) :
    ∃ s', handleSelectLocation loc s = some s' ∧
      s'.mapCur = none ∧
      s'.searchResults = [] ∧
      s'.selectedLocation = some (lat, lon) ∧
      s'.fetchRequests = s.fetchRequests ++ [locationBounds lat lon] ∧
      s'.aqiData = s.aqiData ∧
      s'.toasts = s.toasts := by
  refine ⟨handleSelectLocationCore loc.display_name lat lon s, ?_, ?_, ?_, ?_, ?_, ?_, ?_⟩
  · simp [handleSelectLocation, h1, h2]
  · simp [handleSelectLocationCore, h3]
  · simp [handleSelectLocationCore, h3]
  · simp [handleSelectLocationCore, h3]
  · simp [handleSelectLocationCore, h3]
  · simp [handleSelectLocationCore, h3]
  · simp [handleSelectLocationCore, h3]

/-- Witness for C10: a concrete candidate selected from the mount state
(no map yet). -/
theorem select_location_no_map_witness :
    ∃ s', handleSelectLocation ⟨"Nowhere", "1.5", "2.5"⟩ initialState = some s' ∧
      s'.mapCur = none ∧
      s'.searchResults = [] ∧
      s'.selectedLocation = some ((1.5 : ℚ), (2.5 : ℚ)) ∧
      s'.fetchRequests = initialState.fetchRequests ++ [locationBounds 1.5 2.5] ∧
      s'.aqiData = initialState.aqiData ∧
      s'.toasts = initialState.toasts :=
  select_location_no_map initialState ⟨"Nowhere", "1.5", "2.5"⟩ 1.5 2.5
    (by simp [parseFloat, takeDigits, digitsToNat]; norm_num)
    (by simp [parseFloat, takeDigits, digitsToNat]; norm_num) rfl

end AQIMap

namespace AQIMap

/-! ## C2: single live map instance -/

/-- The lifecycle invariant: the set of live (created, not destroyed)
map instances is exactly the one held by `map.current`, and the
`mapInitialized` flag tracks whether a map is held. -/
def LifecycleInv (s : CtrlState) : Prop :=
  s.liveIds = (s.mapCur.map MapObj.id).toList ∧
  s.mapInitialized = s.mapCur.isSome

lemma inv_initialState : LifecycleInv initialState := ⟨rfl, rfl⟩

lemma inv_step (s s' : CtrlState) (h : Step s s') (hs : LifecycleInv s) :
    LifecycleInv s' := by
  obtain ⟨h1, h2⟩ := hs
  cases h with
  | init c g s =>
    by_cases hg : c = false ∨ g = false ∨ s.mapInitialized
    · unfold initEffectBody
      rw [if_pos hg]
      exact ⟨h1, h2⟩
    · have hmi : s.mapInitialized = false := by
        rcases Bool.eq_false_or_eq_true s.mapInitialized with hb | hb
        · exact absurd (Or.inr (Or.inr hb)) hg
        · exact hb
      have hmc : s.mapCur = none := by
        rw [hmi] at h2
        cases hc : s.mapCur with
        | none => rfl
        | some m => rw [hc] at h2; simp at h2
      unfold initEffectBody
      rw [if_neg hg]
      constructor
      · simp [hmc, h1]
      · simp
  | cleanup s =>
    cases hm : s.mapCur with
    | none => simpa [cleanupEffect, hm] using ⟨h1, h2⟩
    | some m =>
      have hl : s.liveIds = [m.id] := by rw [h1, hm]; rfl
      constructor
      · simp [cleanupEffect, hm, hl]
      · simp [cleanupEffect, hm]
  | search q r s =>
    have hc : (handleSearch q r s).1.mapCur = s.mapCur ∧
        (handleSearch q r s).1.liveIds = s.liveIds ∧
        (handleSearch q r s).1.mapInitialized = s.mapInitialized := by
      by_cases hq : q = "" <;> cases r <;> simp [handleSearch, hq]
    exact ⟨by rw [hc.2.1, hc.1, h1], by rw [hc.2.2, hc.1, h2]⟩
  | select name lat lon s =>
    cases hm : s.mapCur with
    | none =>
      constructor
      · simpa [handleSelectLocationCore, hm] using h1
      · simpa [handleSelectLocationCore, hm] using h2
    | some m =>
      constructor
      · simp [handleSelectLocationCore, hm]
        rw [h1, hm]
        rfl
      · simp [handleSelectLocationCore, hm]
        rw [h2, hm]
        rfl
  | fetchLoc r s =>
    exact ⟨by simpa [applyFetchForLocation] using h1,
      by simpa [applyFetchForLocation] using h2⟩
  | fetchInit r s =>
    exact ⟨by simpa [applyFetchInitial] using h1,
      by simpa [applyFetchInitial] using h2⟩
  | reconcile color s =>
    cases hm : s.mapCur with
    | none =>
      constructor
      · simpa [runReconcile_none color s hm, hm] using h1
      · simpa [runReconcile_none color s hm, hm] using h2
    | some m =>
      by_cases hd : s.aqiData.isEmpty
      · unfold runReconcile
        rw [hm]
        simp only [hd, if_true]
        exact ⟨h1, h2⟩
      · unfold runReconcile
        rw [hm]
        simp only [hd, if_false, Bool.false_eq_true]
        constructor
        · simp
          rw [h1, hm]
          rfl
        · simp
          rw [h2, hm]
          rfl

lemma inv_reachable (s : CtrlState) (h : Reachable s) : LifecycleInv s := by
  induction h with
  | refl => exact inv_initialState
  | tail hst hstep ih => exact inv_step _ _ hstep ih

/-- C2: in every reachable controller state at most one live map
instance exists; while an instance exists (`mapInitialized` still set,
gate open) re-running the initialization effect body is a no-op that
creates nothing; and the teardown path releases the live instance and
clears the handle (`map.current = null`, `mapInitialized = false`), so
any re-creation starts from a map-free state. -/
theorem single_live_map_instance (s : CtrlState) (c g : Bool) (m : MapObj)
    (h : Reachable s) :
    s.liveIds.length ≤ 1 ∧
    (s.mapInitialized = true → initEffectBody c g s = s) ∧
    (cleanupEffect s).mapCur = none ∧
    (s.mapCur = some m →
      (cleanupEffect s).liveIds = [] ∧ (cleanupEffect s).mapInitialized = false) := by
  obtain ⟨h1, h2⟩ := inv_reachable s h
  refine ⟨?_, ?_, ?_, ?_⟩
  · rw [h1]
    cases s.mapCur <;> simp
  · intro hmi
    unfold initEffectBody
    rw [if_pos (Or.inr (Or.inr hmi))]
  · cases hm : s.mapCur <;> simp [cleanupEffect, hm]
  · intro hm
    have hl : s.liveIds = [m.id] := by rw [h1, hm]; rfl
    constructor
    · simp [cleanupEffect, hm, hl]
    · simp [cleanupEffect, hm]

/-- Witness for C2: the state right after the first successful
initialization (one live instance), reached by one `init` step from the
mount state; the no-op and teardown facts are exercised at that
state. -/
theorem single_live_map_instance_witness :
    (initEffectBody true true initialState).liveIds.length ≤ 1 ∧
    ((initEffectBody true true initialState).mapInitialized = true →
      initEffectBody true true (initEffectBody true true initialState) =
        initEffectBody true true initialState) ∧
    (cleanupEffect (initEffectBody true true initialState)).mapCur = none ∧
    ((initEffectBody true true initialState).mapCur =
        some ⟨0, ⟨(39.8283, -98.5795), defaultZoom⟩, [Layer.tileLayer]⟩ →
      (cleanupEffect (initEffectBody true true initialState)).liveIds = [] ∧
      (cleanupEffect (initEffectBody true true initialState)).mapInitialized = false) :=
  single_live_map_instance (initEffectBody true true initialState) true true
    ⟨0, ⟨(39.8283, -98.5795), defaultZoom⟩, [Layer.tileLayer]⟩
    (Relation.ReflTransGen.single (Step.init true true initialState))

end AQIMap
